import Mathlib

/-!
Verification development for the client-side game core of a multiplayer
3D walking demo (files `client/src/GameEngine.ts`, `client/src/InputManager.ts`,
`client/src/SceneManager.ts`).

The TypeScript code works on JavaScript numbers; we model them as real
numbers.  JavaScript reference (in)equality of freshly allocated objects is
modelled explicitly: functions that in the source either return their input
object unchanged or allocate a new one are embedded as functions returning a
pair of the resulting value and a Boolean that is `true` exactly when the
source returns the very object it was given (same reference).
-/

/- ### Constants (GameEngine.ts lines 8-11, InputManager.ts lines 4-6) -/

/-- `MOVEMENT_SPEED = 3.0` — units per second. -/
noncomputable def MOVEMENT_SPEED : ℝ := 3.0

/-- `UPDATE_INTERVAL = 1000 / 30` — minimum ms between position sends. -/
noncomputable def UPDATE_INTERVAL : ℝ := 1000 / 30

/-- `POSITION_THRESHOLD = 0.01` — min distance change to send update. -/
noncomputable def POSITION_THRESHOLD : ℝ := 0.01

/-- `ROTATION_THRESHOLD = 0.01` — min rotation change to send update. -/
noncomputable def ROTATION_THRESHOLD : ℝ := 0.01

/-- `MOUSE_SENSITIVITY = 0.002` (InputManager.ts). -/
noncomputable def MOUSE_SENSITIVITY : ℝ := 0.002

/-- `PITCH_LIMIT_LOW = 1.2` (InputManager.ts). -/
noncomputable def PITCH_LIMIT_LOW : ℝ := 1.2

/-- `PITCH_LIMIT_HIGH = Math.PI - 0.1` (InputManager.ts). -/
noncomputable def PITCH_LIMIT_HIGH : ℝ := Real.pi - 0.1

/- ### THREE.Vector3, restricted to the operations the embedded code uses -/

/-- A `THREE.Vector3` value (components are JS numbers, modelled as reals). -/
structure Vec3 where
  x : ℝ
  y : ℝ
  z : ℝ

/-- A 2-component vector (`THREE.Vector2` / the backend's 2-D ground vector). -/
structure Vec2 where
  x : ℝ
  y : ℝ

def Vec3.add (a b : Vec3) : Vec3 := ⟨a.x + b.x, a.y + b.y, a.z + b.z⟩

def Vec3.sub (a b : Vec3) : Vec3 := ⟨a.x - b.x, a.y - b.y, a.z - b.z⟩

def Vec3.multiplyScalar (v : Vec3) (s : ℝ) : Vec3 := ⟨v.x * s, v.y * s, v.z * s⟩

/-- `divideScalar(s)` is `multiplyScalar(1/s)` in THREE. -/
noncomputable def Vec3.divideScalar (v : Vec3) (s : ℝ) : Vec3 := v.multiplyScalar (1 / s)

def Vec3.lengthSq (v : Vec3) : ℝ := v.x * v.x + v.y * v.y + v.z * v.z

noncomputable def Vec3.length (v : Vec3) : ℝ := Real.sqrt v.lengthSq

/-- `normalize()` divides by `this.length() || 1` (THREE falls back to 1 on a
zero length). -/
noncomputable def Vec3.normalize (v : Vec3) : Vec3 :=
  Vec3.divideScalar v (if Vec3.length v = 0 then 1 else Vec3.length v)

def Vec3.dot (a b : Vec3) : ℝ := a.x * b.x + a.y * b.y + a.z * b.z

/-- `applyAxisAngle(new THREE.Vector3(0, 1, 0), angle)`: rotation about the
world Y axis by `angle` radians. -/
noncomputable def Vec3.applyAxisAngleY (v : Vec3) (angle : ℝ) : Vec3 :=
  ⟨v.x * Real.cos angle + v.z * Real.sin angle,
   v.y,
   -v.x * Real.sin angle + v.z * Real.cos angle⟩

/- ### Input and local-player state (InputManager.ts lines 10-16,
GameEngine.ts lines 14-24) -/

/-- `InputState` (InputManager.ts). -/
structure InputState where
  forward : Bool
  backward : Bool
  left : Bool
  right : Bool
  isPointerLocked : Bool
deriving DecidableEq

/-- The client-side animation name, `'idle' | 'walk'` (SceneManager.ts). -/
inductive AnimationName
  | idle
  | walk
deriving DecidableEq

instance : BEq AnimationName := ⟨fun a b => decide (a = b)⟩

/-- `LocalPlayerState` (GameEngine.ts lines 14-24). -/
structure LocalPlayerState where
  identity : String
  position : Vec3
  rotationY : ℝ
  pitch : ℝ
  input : InputState
  isMoving : Bool
  currentAnimationName : AnimationName
  isMovingBackwards : Bool
  hexColor : Option String

/- ### updatePlayerRotation (GameEngine.ts lines 32-46) -/

open scoped Classical in
/-- `updatePlayerRotation(player, deltaX, deltaY)` (GameEngine.ts lines
32-46).  The returned Boolean is `true` exactly when the source executes
`return player`, i.e. the input object itself is returned (same reference);
it is `false` when a fresh object is allocated. -/
noncomputable def updatePlayerRotation (player : LocalPlayerState)
    (deltaX deltaY : ℝ) : LocalPlayerState × Bool :=
  let newRotationY := player.rotationY - deltaX * MOUSE_SENSITIVITY
  let newPitch :=
    max PITCH_LIMIT_LOW (min PITCH_LIMIT_HIGH (player.pitch + deltaY * MOUSE_SENSITIVITY))
  -- Only update if there's a change
  if newRotationY = player.rotationY ∧ newPitch = player.pitch then
    (player, true)
  else
    ({ player with rotationY := newRotationY, pitch := newPitch }, false)

/- ### calculateNextPlayerState (GameEngine.ts lines 49-100) -/

open scoped Classical in
/-- The movement-direction accumulation of `calculateNextPlayerState`
(GameEngine.ts lines 51-62): start from the zero vector and add/subtract the
yaw-rotated forward/right basis vectors gated by the held-direction flags. -/
noncomputable def moveDirection (input : InputState) (rotationY : ℝ) : Vec3 :=
  let forwardVector := Vec3.applyAxisAngleY ⟨0, 0, -1⟩ rotationY
  let rightVector := Vec3.applyAxisAngleY ⟨1, 0, 0⟩ rotationY
  let d0 : Vec3 := ⟨0, 0, 0⟩
  let d1 := if input.forward then Vec3.add d0 forwardVector else d0
  let d2 := if input.backward then Vec3.sub d1 forwardVector else d1
  let d3 := if input.left then Vec3.sub d2 rightVector else d2
  if input.right then Vec3.add d3 rightVector else d3

open scoped Classical in
/-- `calculateNextPlayerState(player, deltaTime)` (GameEngine.ts lines
49-100).  The returned Boolean is `true` exactly when the source executes
`return player` (same reference).  In the source's guard at line 89,
`newPosition === position` is JavaScript reference equality: it holds exactly
when `isMoving` is false, because the moving branch rebinds `newPosition` to
`position.clone().add(...)`, a fresh object. -/
noncomputable def calculateNextPlayerState (player : LocalPlayerState)
    (deltaTime : ℝ) : LocalPlayerState × Bool :=
  let speed := MOVEMENT_SPEED * deltaTime
  let md := moveDirection player.input player.rotationY
  let isMoving : Bool := decide (Vec3.lengthSq md > 0.00001)
  let newPosition :=
    if isMoving then Vec3.add player.position (Vec3.multiplyScalar (Vec3.normalize md) speed)
    else player.position
  let isLocallyMovingBackwards : Bool :=
    if isMoving then
      let worldMovement := Vec3.sub newPosition player.position
      if decide (Vec3.lengthSq worldMovement > 0.00001) then
        let forwardWorld := Vec3.applyAxisAngleY ⟨0, 0, -1⟩ player.rotationY
        decide (Vec3.dot (Vec3.normalize worldMovement) (Vec3.normalize forwardWorld) < -0.5)
      else false
    else false
  let nextAnimationName : AnimationName := if isMoving then .walk else .idle
  -- guard at line 89; the first conjunct is `newPosition === position`,
  -- JS reference equality, which holds exactly when `isMoving` is false
  if isMoving = false ∧ isMoving = player.isMoving ∧
      nextAnimationName = player.currentAnimationName ∧
      isLocallyMovingBackwards = player.isMovingBackwards then
    (player, true)
  else
    ({ player with
        position := newPosition
        isMoving := isMoving
        currentAnimationName := nextAnimationName
        isMovingBackwards := isMoving && isLocallyMovingBackwards }, false)

/- ### The remote-player map (GameEngine.ts lines 26-29, 103-138)

A JavaScript `Map<string, Player>` preserving insertion order, modelled as an
association list.  A backend `Player` row; `identity` is modelled directly as
the hex string that `identity.toHexString()` produces in the source. -/

/-- A backend `Player` row (the generated `moduleBindings.Player`). -/
structure Player where
  identity : String
  position : Vec2
  rotationYaw : ℝ
  animationState : String
  hexColor : Option String

/-- The remote-players map: a JS `Map<string, Player>` as an ordered
association list. -/
abbrev RPMap := List (String × Player)

/-- `Map.has`-style membership test on keys. -/
def mapHas (m : RPMap) (k : String) : Bool :=
  m.any (fun e => e.1 == k)

/-- `Map.prototype.set(k, v)`: replaces the value in place when the key is
present (keeping insertion order), otherwise appends a fresh entry. -/
def mapSet (m : RPMap) (k : String) (v : Player) : RPMap :=
  if mapHas m k then m.map (fun e => if e.1 == k then (k, v) else e)
  else m ++ [(k, v)]

/-- `Map.prototype.delete(k)`: removes the entry with key `k`, if any. -/
def mapDelete (m : RPMap) (k : String) : RPMap :=
  m.filter (fun e => e.1 != k)

/-- The reconciliation event fed to `updateRemotePlayersMap`
(GameEngine.ts line 105): `{ type, data, localId }` where `data` is a
`Player[]` for `initial` and a single `Player` otherwise. -/
inductive RPEvent
  | initial (data : List Player) (localId : String)
  | insert (data : Player) (localId : String)
  | update (data : Player) (localId : String)
  | delete (data : Player) (localId : String)

/-- The `localId` component of an event. -/
def RPEvent.localId : RPEvent → String
  | .initial _ l => l
  | .insert _ l => l
  | .update _ l => l
  | .delete _ l => l

/-- `updateRemotePlayersMap(currentPlayers, event)` (GameEngine.ts lines
103-138).  The source begins with `const nextPlayers = new Map(currentPlayers)`
— a freshly allocated copy — and always returns `nextPlayers`, so the result
is never reference-equal to `currentPlayers`; the second component records
that (it is the same-reference flag, constantly `false`).  `playerId` is
`player.identity.toHexString()`, modelled as the `identity` field itself. -/
def updateRemotePlayersMap (currentPlayers : RPMap) (event : RPEvent) :
    RPMap × Bool :=
  match event with
  | .initial data localId =>
      -- `nextPlayers.clear()` then insert every non-local row
      (data.foldl
        (fun m player =>
          if player.identity != localId then mapSet m player.identity player else m)
        [], false)
  | .insert player localId =>
      (if player.identity != localId then mapSet currentPlayers player.identity player
       else currentPlayers, false)
  | .update player localId =>
      (if player.identity != localId then mapSet currentPlayers player.identity player
       else currentPlayers, false)
  | .delete player localId =>
      (if player.identity != localId then mapDelete currentPlayers player.identity
       else currentPlayers, false)

/- ### Game state and input handling (GameEngine.ts lines 26-29, 140-148,
207-239; InputManager.ts lines 24-29, 68-86) -/

/-- `GameState` (GameEngine.ts lines 26-29). -/
structure GameState where
  localPlayer : Option LocalPlayerState
  players : RPMap

/-- `initialGameState` (GameEngine.ts lines 145-148). -/
def initialGameState : GameState := { localPlayer := none, players := [] }

/-- The four logical movement directions used by the `'key'` updates. -/
inductive DirKey
  | forward
  | backward
  | left
  | right
deriving DecidableEq

/-- Reading `input[update.key]`. -/
def InputState.getDir (i : InputState) : DirKey → Bool
  | .forward => i.forward
  | .backward => i.backward
  | .left => i.left
  | .right => i.right

/-- Writing `{ ...input, [update.key]: pressed }`. -/
def InputState.setDir (i : InputState) : DirKey → Bool → InputState
  | .forward, b => { i with forward := b }
  | .backward, b => { i with backward := b }
  | .left, b => { i with left := b }
  | .right, b => { i with right := b }

/-- The argument of the `InputUpdateCallback` (InputManager.ts lines 24-29). -/
inductive InputUpdate
  | key (key : DirKey) (pressed : Bool)
  | rotation (deltaX deltaY : ℝ)
  | pointerLock (isLocked : Bool)

/-- `GameEngine.handleInputUpdate(update)` (GameEngine.ts lines 207-239),
as a function of the current game-state snapshot.  The Boolean is `true`
exactly when the method leaves `this.state` untouched (the published snapshot
stays the same object): the source only assigns a new snapshot when
`nextPlayerState !== this.state.localPlayer`. -/
noncomputable def handleInputUpdate (state : GameState) (update : InputUpdate) :
    GameState × Bool :=
  match state.localPlayer with
  | none => (state, true)
  | some player =>
      let next : LocalPlayerState × Bool :=
        match update with
        | .key k pressed =>
            if player.input.getDir k != pressed then
              ({ player with input := player.input.setDir k pressed }, false)
            else (player, true)
        | .pointerLock isLocked =>
            if player.input.isPointerLocked != isLocked then
              ({ player with input := { player.input with isPointerLocked := isLocked } }, false)
            else (player, true)
        | .rotation dx dy => updatePlayerRotation player dx dy
      if next.2 then (state, true)
      else ({ state with localPlayer := some next.1 }, false)

/-- `InputManager.handleKeyDown` (InputManager.ts lines 68-76): the list of
updates emitted through `this.updateCallback` for one `keydown` event with the
given `e.key`.  The emission is unconditional for the four direction keys —
the manager keeps no key state of its own. -/
def handleKeyDown (key : String) : List InputUpdate :=
  -- `const key = e.key.toLowerCase()`: the parameter stands for the already
  -- lowercased `e.key`
  let k := key
  if k = "w" then [.key .forward true]
  else if k = "s" then [.key .backward true]
  else if k = "a" then [.key .left true]
  else if k = "d" then [.key .right true]
  else []

/- ### Server Update Gate (GameEngine.ts lines 163-166, 377-421) -/

/-- `this.lastSentPosition: { x, y, rotation }` (GameEngine.ts line 164). -/
structure SentPos where
  x : ℝ
  y : ℝ
  rotation : ℝ

/-- `ServerAnimationState` (SceneManager.ts):
`'idle' | 'walkingForwards' | 'walkingBackwards'`. -/
inductive ServerAnimationState
  | idle
  | walkingForwards
  | walkingBackwards
deriving DecidableEq

/-- The mutable gate fields of `GameEngine` used by `sendServerUpdates`
(GameEngine.ts lines 163-165): `lastUpdateTime`, `lastSentPosition`,
`lastSentAnimationState` (initially `null`, hence `Option`). -/
structure GateState where
  lastUpdateTime : ℝ
  lastSentPosition : SentPos
  lastSentAnimationState : Option ServerAnimationState

/-- The outbound reducer calls a single `sendServerUpdates` pass performs:
at most one `updatePlayerPosition((x, y), rotation)` call and at most one
`updatePlayerAnimationState(s)` call. -/
structure ServerCalls where
  positionCall : Option (ℝ × ℝ × ℝ)
  animationCall : Option ServerAnimationState

/-- The animation state string sent to the server (GameEngine.ts lines
385-390): `idle` when the animation name is `'idle'`, otherwise
`walkingBackwards`/`walkingForwards` by the `isMovingBackwards` flag. -/
def serverAnimationStateOf (currentAnimationName : AnimationName)
    (isMovingBackwards : Bool) : ServerAnimationState :=
  match currentAnimationName with
  | .idle => .idle
  | .walk => if isMovingBackwards then .walkingBackwards else .walkingForwards

/-- `positionChanged` (GameEngine.ts lines 393-394): either ground coordinate
moved by more than `POSITION_THRESHOLD` since the last *sent* data (the stored
`y` holds the world `z`). -/
def positionChanged (last : SentPos) (position : Vec3) : Prop :=
  |position.x - last.x| > POSITION_THRESHOLD ∨ |position.z - last.y| > POSITION_THRESHOLD

/-- `rotationChanged` (GameEngine.ts line 395). -/
def rotationChanged (last : SentPos) (currentRotation : ℝ) : Prop :=
  |currentRotation - last.rotation| > ROTATION_THRESHOLD

open scoped Classical in
/-- `GameEngine.sendServerUpdates()` (GameEngine.ts lines 377-421) as a pure
step function of the gate fields, the current clock `now` and the local
player, returning the new gate fields and the outbound calls.  The connected
case is modelled (`this.connection` non-null and a local player present); the
reducer calls are assumed not to throw, so the `catch` branches are not
taken.  The source's single `if` both sends and updates the two position
fields; it is transcribed as two `if`s with the same condition. -/
noncomputable def sendServerUpdates (gate : GateState) (now : ℝ)
    (player : LocalPlayerState) : GateState × ServerCalls :=
  let position := player.position
  let currentRotation := player.rotationY + Real.pi
  let serverAnimationState :=
    serverAnimationStateOf player.currentAnimationName player.isMovingBackwards
  let animationChanged := some serverAnimationState ≠ gate.lastSentAnimationState
  let doSendPosition :=
    now - gate.lastUpdateTime ≥ UPDATE_INTERVAL ∧
      (positionChanged gate.lastSentPosition position ∨
        rotationChanged gate.lastSentPosition currentRotation)
  let gate1 :=
    if doSendPosition then
      { gate with
          lastSentPosition := ⟨position.x, position.z, currentRotation⟩
          lastUpdateTime := now }
    else gate
  let posCall : Option (ℝ × ℝ × ℝ) :=
    if doSendPosition then some (position.x, position.z, currentRotation) else none
  let gate2 :=
    if animationChanged then
      { gate1 with lastSentAnimationState := some serverAnimationState }
    else gate1
  let animCall : Option ServerAnimationState :=
    if animationChanged then some serverAnimationState else none
  (gate2, ⟨posCall, animCall⟩)

/- ### Render synchronizer (SceneManager.ts lines 17-26, 556-646, 664-690,
693-724) -/

/-- The remote-player render data handed to the scene manager
(SceneManager.ts lines 39-45).  The TypeScript interface declares a
`{ x, y, z }` position, but the value `GameEngine.updateSceneFromState`
actually passes is the backend row's 2-D ground vector `{ x, y }`
(GameEngine.ts lines 301-309), so reading `.z` yields `undefined`; the
`THREE.Vector3` constructor substitutes its default `0` for it.  The position
is therefore modelled as the 2-D row vector. -/
structure RemotePlayerRenderData where
  identity : String
  position : Vec2
  rotationYaw : ℝ
  animationState : String
  hexColor : Option String

/-- `PlayerRenderComponent` (SceneManager.ts lines 17-26), restricted to the
fields the synchronization logic reads/writes: the model's world position and
yaw, the currently-active animation name, the walk action's `timeScale`, and
the `lastPositionSq` bookkeeping vector. -/
structure PlayerRenderComponent where
  positionV : Vec3
  rotationY : ℝ
  currentAnimation : AnimationName
  walkTimeScale : ℝ
  lastPositionSq : Vec2

/-- Observable animation-mixer effects: `fadeOut(d)` on an action, and the
`reset().setEffectiveWeight(1).fadeIn(d).play()` chain on an action.  A
crossfade is the emission of one `fadeOut` plus one `fadeIn`. -/
inductive AnimEvent
  | fadeOut (action : AnimationName)
  | fadeIn (action : AnimationName)
deriving DecidableEq

/-- `SceneManager.switchAnimation(rc, from, to)` (SceneManager.ts lines
664-690): no effect when `from === to`; otherwise fade out the `from` action
and reset/fade-in/play the `to` action (the two actions are distinct whenever
the names differ, so the `fromAction !== toAction` test passes).  The function
does not touch the component's fields; the caller updates
`currentAnimation` afterwards. -/
def switchAnimation (fromAnim toAnim : AnimationName) : List AnimEvent :=
  if fromAnim = toAnim then []
  else [AnimEvent.fadeOut fromAnim, AnimEvent.fadeIn toAnim]

open scoped Classical in
/-- The creation branch of `SceneManager.updateRemotePlayers` for an identity
without a component (SceneManager.ts lines 566-594), given that render assets
are ready: position is set to `(position.x, 0, position.y)` — "x, y in server
space = x, z in 3D space" — yaw to `rotationYaw`; the freshly created
component starts in `idle` with walk `timeScale = 1`
(`createPlayerRenderComponent`, lines 289-299), then `switchAnimation` moves
it to the client state derived from `animationState || 'idle'` and the walk
`timeScale` is set by `walkingBackwards`. -/
noncomputable def createRemoteComponent (playerData : RemotePlayerRenderData) :
    PlayerRenderComponent × List AnimEvent :=
  let posInit : Vec3 := ⟨playerData.position.x, 0, playerData.position.y⟩
  let serverAnimState :=
    if playerData.animationState = "" then "idle" else playerData.animationState
  let clientAnimState : AnimationName := if serverAnimState = "idle" then .idle else .walk
  let targetTimeScale : ℝ := if serverAnimState = "walkingBackwards" then -1 else 1
  let base : PlayerRenderComponent :=
    { positionV := posInit
      rotationY := playerData.rotationYaw
      currentAnimation := .idle
      walkTimeScale := 1
      lastPositionSq := ⟨posInit.x, posInit.z⟩ }
  let events := switchAnimation .idle clientAnimState
  ({ base with currentAnimation := clientAnimState, walkTimeScale := targetTimeScale },
   events)

open scoped Classical in
/-- The update branch of `SceneManager.updateRemotePlayers` for an identity
that already has a component (SceneManager.ts lines 598-635).  `targetPos` is
`new THREE.Vector3(position.x, position.y, position.z)`; the passed position
is the 2-D row vector, so `.z` is `undefined` and the constructor defaults it
to `0`.  Rotation is copied only when it differs by more than `0.001`;
`switchAnimation` runs only when the desired client animation name differs;
the walk `timeScale` is then reconciled. -/
noncomputable def updateExistingRemoteComponent (rc : PlayerRenderComponent)
    (playerData : RemotePlayerRenderData) : PlayerRenderComponent × List AnimEvent :=
  let targetPos : Vec3 := ⟨playerData.position.x, playerData.position.y, 0⟩
  let rc1 := if ¬ (rc.positionV = targetPos) then { rc with positionV := targetPos } else rc
  let targetRotY := playerData.rotationYaw
  let rc2 :=
    if |rc1.rotationY - targetRotY| > 0.001 then { rc1 with rotationY := targetRotY } else rc1
  let serverAnimState :=
    if playerData.animationState = "" then "idle" else playerData.animationState
  let desiredClientAnim : AnimationName := if serverAnimState = "idle" then .idle else .walk
  let targetTimeScale : ℝ := if serverAnimState = "walkingBackwards" then -1 else 1
  let events :=
    if rc2.currentAnimation ≠ desiredClientAnim then
      switchAnimation rc2.currentAnimation desiredClientAnim
    else []
  let rc3 :=
    if rc2.currentAnimation ≠ desiredClientAnim then
      { rc2 with currentAnimation := desiredClientAnim }
    else rc2
  let rc4 :=
    if desiredClientAnim = .walk then
      (if rc3.walkTimeScale ≠ targetTimeScale then { rc3 with walkTimeScale := targetTimeScale }
       else rc3)
    else
      (if rc3.walkTimeScale ≠ 1 then { rc3 with walkTimeScale := 1 } else rc3)
  ({ rc4 with lastPositionSq := playerData.position }, events)

/-- The scene manager's synchronizer state: `playerRenderComponents` keyed by
identity, plus the identities whose component has been put through
`disposeRenderComponent` (animations stopped, geometry/material/texture
resources released) — the disposal side effects recorded as a log. -/
structure SceneState where
  playerRenderComponents : List (String × PlayerRenderComponent)
  disposed : List String

/-- `this.playerRenderComponents.get(playerId)`. -/
def lookupComp (comps : List (String × PlayerRenderComponent)) (pid : String) :
    Option PlayerRenderComponent :=
  (comps.find? (fun e => e.1 == pid)).map (fun e => e.2)

/-- `Map.set` on the components map. -/
def mapSetRC (comps : List (String × PlayerRenderComponent)) (pid : String)
    (rc : PlayerRenderComponent) : List (String × PlayerRenderComponent) :=
  if comps.any (fun e => e.1 == pid) then
    comps.map (fun e => if e.1 == pid then (pid, rc) else e)
  else comps ++ [(pid, rc)]

open scoped Classical in
/-- `SceneManager.updateRemotePlayers(players)` (SceneManager.ts lines
556-646): one synchronization pass.  Each player in the snapshot either gets
a fresh component (when assets are ready) or its existing component updated;
afterwards every component whose identity no longer appears in the snapshot
is removed from the map and passed to `disposeRenderComponent`
(lines 639-645, 693-724). -/
noncomputable def updateRemotePlayers (scene : SceneState)
    (players : List (String × RemotePlayerRenderData)) (assetsReady : Bool) :
    SceneState :=
  let processed := players.foldl
    (fun comps pd =>
      match lookupComp comps pd.1 with
      | none => if assetsReady then mapSetRC comps pd.1 (createRemoteComponent pd.2).1 else comps
      | some rc => mapSetRC comps pd.1 (updateExistingRemoteComponent rc pd.2).1)
    scene.playerRenderComponents
  let keep := processed.filter (fun e => players.any (fun q => q.1 == e.1))
  let removedIds := (processed.filter (fun e => ¬ players.any (fun q => q.1 == e.1))).map
    (fun e => e.1)
  { playerRenderComponents := keep, disposed := scene.disposed ++ removedIds }

/- ### Disconnect / subscription error (GameEngine.ts lines 483-501, 616-619) -/

/-- The connection-related fields of `GameEngine`: whether `this.connection`
and `this.dbCallbacks` are non-null, and the game-state snapshot. -/
structure EngineConn where
  connection : Bool
  dbCallbacks : Bool
  gameState : GameState

/-- `GameEngine.disconnect()` (GameEngine.ts lines 483-501): when both the
connection and the stored DB callbacks are present, the player-table callbacks
are deregistered and `this.dbCallbacks` is cleared; then `this.connection` is
cleared and the state is reset to `initialGameState` (the scene update it
triggers is outside this model). -/
def disconnect (e : EngineConn) : EngineConn :=
  let e1 := if e.connection && e.dbCallbacks then { e with dbCallbacks := false } else e
  { e1 with connection := false, gameState := initialGameState }

/-- The `.onError` handler of the DB subscription (GameEngine.ts lines
616-619): logs and immediately calls `this.disconnect()`. -/
def onSubscriptionError (e : EngineConn) : EngineConn :=
  disconnect e

/- ### Claim-statement predicates and concrete sample values -/

/-- Exactly one of the four direction flags is held. -/
def exactlyOneDirectionHeld (i : InputState) : Prop :=
  (i.forward = true ∧ i.backward = false ∧ i.left = false ∧ i.right = false) ∨
  (i.forward = false ∧ i.backward = true ∧ i.left = false ∧ i.right = false) ∨
  (i.forward = false ∧ i.backward = false ∧ i.left = true ∧ i.right = false) ∨
  (i.forward = false ∧ i.backward = false ∧ i.left = false ∧ i.right = true)

/-- Two orthogonal direction flags are held simultaneously (one of
forward/backward together with one of left/right). -/
def twoOrthogonalDirectionsHeld (i : InputState) : Prop :=
  (i.forward = true ∧ i.backward = false ∧ i.left = true ∧ i.right = false) ∨
  (i.forward = true ∧ i.backward = false ∧ i.left = false ∧ i.right = true) ∨
  (i.forward = false ∧ i.backward = true ∧ i.left = true ∧ i.right = false) ∨
  (i.forward = false ∧ i.backward = true ∧ i.left = false ∧ i.right = true)

/-- A concrete local-player state: at the origin, yaw 0, pitch 1.5, no input
held, idle. -/
noncomputable def basePlayer : LocalPlayerState :=
  { identity := "local"
    position := ⟨0, 0, 0⟩
    rotationY := 0
    pitch := 1.5
    input := ⟨false, false, false, false, false⟩
    isMoving := false
    currentAnimationName := .idle
    isMovingBackwards := false
    hexColor := none }

/-- `basePlayer` with the forward key held. -/
noncomputable def forwardPlayer : LocalPlayerState :=
  { basePlayer with input := ⟨true, false, false, false, false⟩ }

/-- `basePlayer` with pitch 0, outside the clamp range `[1.2, π - 0.1]`. -/
noncomputable def zeroPitchPlayer : LocalPlayerState :=
  { basePlayer with pitch := 0 }

/-- A concrete backend row with identity `"aa"`. -/
noncomputable def playerAA : Player := ⟨"aa", ⟨0, 0⟩, 0, "idle", none⟩

/-- A concrete backend row with identity `"cc"`. -/
noncomputable def playerCC : Player := ⟨"cc", ⟨0, 0⟩, 0, "idle", none⟩

/-- The end-to-end scenario row of the spec: identity `"abc"`, 2-D ground
position `(5, 2)`, yaw `1.57`, idle. -/
noncomputable def remoteRowAbc : RemotePlayerRenderData :=
  ⟨"abc", ⟨5, 2⟩, 1.57, "idle", none⟩

/-- A concrete render component currently playing `idle` at the origin. -/
noncomputable def rcIdle : PlayerRenderComponent := ⟨⟨0, 0, 0⟩, 0, .idle, 1, ⟨0, 0⟩⟩

/-- Remote render data classifying as walk-forward. -/
noncomputable def walkFwdData : RemotePlayerRenderData :=
  ⟨"r", ⟨0, 0⟩, 0, "walkingForwards", none⟩

/-- Remote render data classifying as walk-backward. -/
noncomputable def walkBackData : RemotePlayerRenderData :=
  ⟨"r", ⟨0, 0⟩, 0, "walkingBackwards", none⟩

/-- A concrete gate state: last send at time 0, origin sent, rotation π
sent, idle animation sent. -/
noncomputable def sampleGate : GateState := ⟨0, ⟨0, 0, Real.pi⟩, some .idle⟩

/-- A connected, subscribed engine. -/
noncomputable def sampleEngine : EngineConn :=
  ⟨true, true, { localPlayer := some basePlayer, players := [] }⟩

/-- `basePlayer` moved to `(1, 0, 0)`. -/
noncomputable def movedPlayer1 : LocalPlayerState :=
  { basePlayer with position := ⟨1, 0, 0⟩ }

/-- `basePlayer` moved to `(2, 0, 0)`. -/
noncomputable def movedPlayer2 : LocalPlayerState :=
  { basePlayer with position := ⟨2, 0, 0⟩ }

/-- The keyboard character that `handleKeyDown` maps to each logical
direction (`w`/`s`/`a`/`d`). -/
def dirKeyChar : DirKey → String
  | .forward => "w"
  | .backward => "s"
  | .left => "a"
  | .right => "d"

/- ### Helper lemmas -/

theorem mapHas_nil (l : String) : mapHas [] l = false := rfl

theorem mapHas_replace_of_ne (m : RPMap) (k l : String) (v : Player)
    (hne : (k == l) = false) (h : mapHas m l = false) :
    (m.map (fun e => if e.1 == k then (k, v) else e)).any (fun e => e.1 == l) = false := by
  induction m with
  | nil => rfl
  | cons e t ih =>
      simp only [mapHas, List.any_cons, Bool.or_eq_false_iff] at h
      simp only [List.map_cons, List.any_cons, Bool.or_eq_false_iff]
      refine ⟨?_, ih h.2⟩
      by_cases hek : (e.1 == k) = true
      · simp [hek, hne]
      · simp only [Bool.not_eq_true] at hek
        simp [hek, h.1]

theorem mapHas_mapSet_of_ne (m : RPMap) (k l : String) (v : Player)
    (hne : (k == l) = false) (h : mapHas m l = false) :
    mapHas (mapSet m k v) l = false := by
  unfold mapSet
  by_cases hk : mapHas m k
  · simp only [hk, if_true]
    exact mapHas_replace_of_ne m k l v hne h
  · simp only [hk, if_false, Bool.false_eq_true]
    unfold mapHas at h ⊢
    simp [List.any_append, h, hne]

theorem mapHas_mapDelete_of_absent (m : RPMap) (k l : String)
    (h : mapHas m l = false) : mapHas (mapDelete m k) l = false := by
  unfold mapDelete
  induction m with
  | nil => rfl
  | cons e t ih =>
      simp only [mapHas, List.any_cons, Bool.or_eq_false_iff] at h
      by_cases hek : (e.1 != k) = true
      · simp only [List.filter_cons, hek, if_true]
        simp only [mapHas, List.any_cons, Bool.or_eq_false_iff]
        exact ⟨h.1, ih h.2⟩
      · simp only [List.filter_cons, hek]
        exact ih h.2

theorem mapHas_initial_fold (data : List Player) (l : String) :
    ∀ acc : RPMap, mapHas acc l = false →
      mapHas (data.foldl
        (fun m player =>
          if player.identity != l then mapSet m player.identity player else m) acc) l
        = false := by
  induction data with
  | nil => intro acc h; exact h
  | cons p t ih =>
      intro acc h
      simp only [List.foldl_cons]
      by_cases hp : (p.identity != l) = true
      · simp only [hp, if_true]
        refine ih _ (mapHas_mapSet_of_ne acc p.identity l p ?_ h)
        simpa [bne] using hp
      · simp only [hp]
        exact ih _ h

/- ### C9 -/

/-- C9: on a backend subscription error the client immediately disconnects
and resets — `onSubscriptionError` clears the connection reference, restores
the game state to the initial not-connected snapshot (no local player, empty
remote-player map), and, whenever a connection was present, clears the stored
database callbacks. -/
theorem onSubscriptionError_resets_session (e : EngineConn) :
    (onSubscriptionError e).connection = false ∧
    (onSubscriptionError e).gameState = initialGameState ∧
    (onSubscriptionError e).gameState.localPlayer = none ∧
    (onSubscriptionError e).gameState.players = [] ∧
    (e.connection = true → (onSubscriptionError e).dbCallbacks = false) := by
  unfold onSubscriptionError disconnect
  refine ⟨rfl, rfl, rfl, rfl, ?_⟩
  intro hc
  cases hd : e.dbCallbacks <;> simp [hc, hd]

/-- Witness for C9 at a connected, subscribed engine. -/
theorem onSubscriptionError_resets_session_witness :
    sampleEngine.connection = true ∧
    (onSubscriptionError sampleEngine).connection = false ∧
    (onSubscriptionError sampleEngine).dbCallbacks = false :=
  ⟨rfl, (onSubscriptionError_resets_session sampleEngine).1,
    (onSubscriptionError_resets_session sampleEngine).2.2.2.2 rfl⟩

/- ### C1 -/

/-- C1 (divergence): `updateRemotePlayersMap` starts from
`new Map(currentPlayers)` and always returns that fresh copy, so even for a
no-op event — here a `delete` for identity `"aa"` absent from the map — the
result has exactly the contents of the input but is never the same map object
(the same-reference flag is `false`), contradicting the claimed
reference-preservation for no-op events. -/
theorem updateRemotePlayersMap_always_allocates :
    updateRemotePlayersMap [("cc", playerCC)] (.delete playerAA ("bb"))
      = ([("cc", playerCC)], false) := by
  rfl

/- ### C2 -/

/-- C2: for every remote-player map not containing the local identity and
every reconciliation event carrying that local identity, the resulting map
still does not contain an entry keyed by the local identity — `initial`
snapshots and `insert`/`update` upserts filter rows whose identity equals the
local identity, and `delete` only removes entries. -/
theorem updateRemotePlayersMap_filters_local_identity (m : RPMap) (e : RPEvent)
    (h : mapHas m e.localId = false) :
    mapHas (updateRemotePlayersMap m e).1 e.localId = false := by
  cases e with
  | initial data l =>
      exact mapHas_initial_fold data l [] rfl
  | insert p l =>
      simp only [updateRemotePlayersMap, RPEvent.localId] at h ⊢
      by_cases hp : (p.identity != l) = true
      · simp only [hp, if_true]
        exact mapHas_mapSet_of_ne m p.identity l p (by simpa [bne] using hp) h
      · simp only [hp]
        exact h
  | update p l =>
      simp only [updateRemotePlayersMap, RPEvent.localId] at h ⊢
      by_cases hp : (p.identity != l) = true
      · simp only [hp, if_true]
        exact mapHas_mapSet_of_ne m p.identity l p (by simpa [bne] using hp) h
      · simp only [hp]
        exact h
  | delete p l =>
      simp only [updateRemotePlayersMap, RPEvent.localId] at h ⊢
      by_cases hp : (p.identity != l) = true
      · simp only [hp, if_true]
        exact mapHas_mapDelete_of_absent m p.identity l h
      · simp only [hp]
        exact h

/-- Witness for C2: inserting the local player's own row (identity `"aa"`,
equal to the event's local identity) into a map that does not contain it adds
no entry for it. -/
theorem updateRemotePlayersMap_filters_local_identity_witness :
    mapHas [("cc", playerCC)] ("aa") = false ∧
    mapHas (updateRemotePlayersMap [("cc", playerCC)] (.insert playerAA ("aa"))).1 ("aa")
      = false :=
  ⟨rfl, updateRemotePlayersMap_filters_local_identity [("cc", playerCC)]
    (.insert playerAA ("aa")) rfl⟩

/- ### Input no-op helpers -/

theorem handleInputUpdate_key_noop (g : GameState) (p : LocalPlayerState)
    (k : DirKey) (b : Bool) (hg : g.localPlayer = some p)
    (hk : p.input.getDir k = b) :
    handleInputUpdate g (.key k b) = (g, true) := by
  unfold handleInputUpdate
  rw [hg]
  simp [hk]

theorem handleInputUpdate_pointerLock_noop (g : GameState) (p : LocalPlayerState)
    (lock : Bool) (hg : g.localPlayer = some p)
    (hl : p.input.isPointerLocked = lock) :
    handleInputUpdate g (.pointerLock lock) = (g, true) := by
  unfold handleInputUpdate
  rw [hg]
  simp [hl]

/- ### C10 -/

/-- C10: `handleInputUpdate` is a reference-preserving no-op for redundant
input events — a `'key'` update whose pressed flag equals the stored value,
or a `'pointerLock'` update whose flag equals the stored pointer-lock flag,
leaves the published game-state snapshot the same object (`true` flag, state
unchanged). -/
theorem handleInputUpdate_redundant_noop (g : GameState) (p : LocalPlayerState)
    (k : DirKey) (b lock : Bool) :
    (g.localPlayer = some p → p.input.getDir k = b →
      handleInputUpdate g (.key k b) = (g, true)) ∧
    (g.localPlayer = some p → p.input.isPointerLocked = lock →
      handleInputUpdate g (.pointerLock lock) = (g, true)) :=
  ⟨fun hg hk => handleInputUpdate_key_noop g p k b hg hk,
   fun hg hl => handleInputUpdate_pointerLock_noop g p lock hg hl⟩

/-- Witness for C10 at a concrete snapshot: the stored forward flag and
pointer-lock flag are both `false`, and feeding matching redundant updates
returns the same snapshot object. -/
theorem handleInputUpdate_redundant_noop_witness :
    basePlayer.input.getDir .forward = false ∧
    handleInputUpdate ⟨some basePlayer, []⟩ (.key .forward false)
      = (⟨some basePlayer, []⟩, true) ∧
    handleInputUpdate ⟨some basePlayer, []⟩ (.pointerLock false)
      = (⟨some basePlayer, []⟩, true) :=
  ⟨rfl,
   (handleInputUpdate_redundant_noop ⟨some basePlayer, []⟩ basePlayer .forward false
      false).1 rfl rfl,
   (handleInputUpdate_redundant_noop ⟨some basePlayer, []⟩ basePlayer .forward false
      false).2 rfl rfl⟩

/- ### C8 -/

/-- C8 (counterexample): `InputManager.handleKeyDown` keeps no key state and
invokes the update callback unconditionally — two consecutive `keydown`
events for `w` (the second being an OS key-repeat of a key already held)
each emit an event through the callback, so a repeated key-down does NOT
produce "no event through the update callback" as claimed. -/
theorem handleKeyDown_repeat_still_emits :
    handleKeyDown ("w") = [InputUpdate.key .forward true] ∧
    handleKeyDown ("w") ++ handleKeyDown ("w")
      = [InputUpdate.key .forward true, InputUpdate.key .forward true] ∧
    handleKeyDown ("w") ≠ ([] : List InputUpdate) := by
  refine ⟨rfl, rfl, ?_⟩
  rw [show handleKeyDown ("w") = [InputUpdate.key .forward true] from rfl]
  exact List.cons_ne_nil _ _

/-- C8 (amended): the key handler emits the `'key'` event on every direction
key-down, including repeats, but deduplication happens downstream — the
emitted event, fed to `GameEngine.handleInputUpdate` while the direction is
already held, leaves the published game-state snapshot the same object, so a
repeat causes no input-state transition. -/
theorem handleKeyDown_dedup_downstream (g : GameState) (p : LocalPlayerState)
    (k : DirKey) (hg : g.localPlayer = some p) (hheld : p.input.getDir k = true) :
    handleKeyDown (dirKeyChar k) = [InputUpdate.key k true] ∧
    handleInputUpdate g (.key k true) = (g, true) := by
  refine ⟨?_, handleInputUpdate_key_noop g p k true hg hheld⟩
  cases k <;> rfl

/-- Witness for C8 at a snapshot whose forward flag is already held. -/
theorem handleKeyDown_dedup_downstream_witness :
    forwardPlayer.input.getDir .forward = true ∧
    handleKeyDown (dirKeyChar .forward) = [InputUpdate.key .forward true] ∧
    handleInputUpdate ⟨some forwardPlayer, []⟩ (.key .forward true)
      = (⟨some forwardPlayer, []⟩, true) :=
  ⟨rfl,
   (handleKeyDown_dedup_downstream ⟨some forwardPlayer, []⟩ forwardPlayer .forward
      rfl rfl).1,
   (handleKeyDown_dedup_downstream ⟨some forwardPlayer, []⟩ forwardPlayer .forward
      rfl rfl).2⟩

/- ### C7 -/

/-- C7 (counterexample): `updatePlayerRotation` with both deltas zero does
NOT always return the object it was given — at a state whose pitch `0` lies
outside the clamp range `[PITCH_LIMIT_LOW, PITCH_LIMIT_HIGH]`, the zero-delta
call clamps the pitch to `PITCH_LIMIT_LOW` and allocates a fresh state
(same-reference flag `false`), refuting the claim as stated. -/
theorem updatePlayerRotation_zero_delta_allocates :
    (updatePlayerRotation zeroPitchPlayer 0 0).2 = false ∧
    (updatePlayerRotation zeroPitchPlayer 0 0).1.pitch = PITCH_LIMIT_LOW := by
  have hpitch : zeroPitchPlayer.pitch = 0 := rfl
  have hpi : (0 : ℝ) ≤ PITCH_LIMIT_HIGH := by
    have := Real.pi_gt_three
    unfold PITCH_LIMIT_HIGH
    linarith
  have hnewPitch :
      max PITCH_LIMIT_LOW (min PITCH_LIMIT_HIGH (zeroPitchPlayer.pitch + 0 * MOUSE_SENSITIVITY))
        = PITCH_LIMIT_LOW := by
    rw [hpitch]
    rw [zero_mul, add_zero, min_eq_right hpi]
    rw [max_eq_left]
    unfold PITCH_LIMIT_LOW
    norm_num
  have hne : ¬ (zeroPitchPlayer.rotationY - 0 * MOUSE_SENSITIVITY = zeroPitchPlayer.rotationY ∧
      max PITCH_LIMIT_LOW (min PITCH_LIMIT_HIGH (zeroPitchPlayer.pitch + 0 * MOUSE_SENSITIVITY))
        = zeroPitchPlayer.pitch) := by
    intro hc
    have h2 := hc.2
    rw [hnewPitch, hpitch] at h2
    have : PITCH_LIMIT_LOW = (1.2 : ℝ) := rfl
    rw [this] at h2
    norm_num at h2
  unfold updatePlayerRotation
  rw [if_neg hne]
  exact ⟨rfl, hnewPitch⟩

/-- C7 (amended): when nothing actionable changed, the simulator returns the
identical state reference — `calculateNextPlayerState` on a state with no
direction flag held and `isMoving`/`currentAnimationName`/`isMovingBackwards`
already idle returns the very object it was given, and `updatePlayerRotation`
with both deltas zero returns the very object it was given *provided the
stored pitch already lies within the clamp range
`[PITCH_LIMIT_LOW, PITCH_LIMIT_HIGH]`* (every reachable state satisfies this,
but a zero-delta rotate on an out-of-range pitch re-clamps and allocates). -/
theorem simulator_noop_returns_same_reference (p : LocalPlayerState) (dt : ℝ)
    (h1 : p.input.forward = false) (h2 : p.input.backward = false)
    (h3 : p.input.left = false) (h4 : p.input.right = false)
    (h5 : p.isMoving = false) (h6 : p.currentAnimationName = .idle)
    (h7 : p.isMovingBackwards = false)
    (h8 : PITCH_LIMIT_LOW ≤ p.pitch) (h9 : p.pitch ≤ PITCH_LIMIT_HIGH) :
    calculateNextPlayerState p dt = (p, true) ∧
    updatePlayerRotation p 0 0 = (p, true) := by
  constructor
  · have hmd : moveDirection p.input p.rotationY = ⟨0, 0, 0⟩ := by
      simp [moveDirection, h1, h2, h3, h4]
    have hmov : decide (Vec3.lengthSq ⟨0, 0, 0⟩ > 0.00001) = false :=
      decide_eq_false (by unfold Vec3.lengthSq; norm_num)
    unfold calculateNextPlayerState
    simp [hmd, hmov, h5, h6, h7]
  · have hcond : p.rotationY - 0 * MOUSE_SENSITIVITY = p.rotationY ∧
        max PITCH_LIMIT_LOW (min PITCH_LIMIT_HIGH (p.pitch + 0 * MOUSE_SENSITIVITY))
          = p.pitch := by
      constructor
      · ring
      · rw [zero_mul, add_zero, min_eq_right h9, max_eq_right h8]
    unfold updatePlayerRotation
    rw [if_pos hcond]

/-- Witness for C7 at a concrete idle state with in-range pitch `1.5`. -/
theorem simulator_noop_returns_same_reference_witness :
    PITCH_LIMIT_LOW ≤ basePlayer.pitch ∧
    calculateNextPlayerState basePlayer 1 = (basePlayer, true) ∧
    updatePlayerRotation basePlayer 0 0 = (basePlayer, true) := by
  have h8 : PITCH_LIMIT_LOW ≤ basePlayer.pitch := by
    show (1.2 : ℝ) ≤ (1.5 : ℝ)
    norm_num
  have h9 : basePlayer.pitch ≤ PITCH_LIMIT_HIGH := by
    show (1.5 : ℝ) ≤ Real.pi - 0.1
    have := Real.pi_gt_three
    linarith
  have h := simulator_noop_returns_same_reference basePlayer 1
    rfl rfl rfl rfl rfl rfl rfl h8 h9
  exact ⟨h8, h.1, h.2⟩

/- ### Server-update-gate helpers -/

theorem sendServerUpdates_pos_send (gate : GateState) (now : ℝ)
    (player : LocalPlayerState)
    (h : now - gate.lastUpdateTime ≥ UPDATE_INTERVAL ∧
      (positionChanged gate.lastSentPosition player.position ∨
        rotationChanged gate.lastSentPosition (player.rotationY + Real.pi))) :
    (sendServerUpdates gate now player).2.positionCall
      = some (player.position.x, player.position.z, player.rotationY + Real.pi) := by
  unfold sendServerUpdates
  by_cases hA : some (serverAnimationStateOf player.currentAnimationName
      player.isMovingBackwards) ≠ gate.lastSentAnimationState <;>
    simp [h.1, h.2, hA]

theorem sendServerUpdates_pos_skip (gate : GateState) (now : ℝ)
    (player : LocalPlayerState)
    (h : ¬ (now - gate.lastUpdateTime ≥ UPDATE_INTERVAL ∧
      (positionChanged gate.lastSentPosition player.position ∨
        rotationChanged gate.lastSentPosition (player.rotationY + Real.pi)))) :
    (sendServerUpdates gate now player).2.positionCall = none ∧
    (sendServerUpdates gate now player).1.lastSentPosition = gate.lastSentPosition ∧
    (sendServerUpdates gate now player).1.lastUpdateTime = gate.lastUpdateTime := by
  unfold sendServerUpdates
  by_cases hA : some (serverAnimationStateOf player.currentAnimationName
      player.isMovingBackwards) ≠ gate.lastSentAnimationState <;>
    simp [h, hA]

theorem sendServerUpdates_anim_send (gate : GateState) (now : ℝ)
    (player : LocalPlayerState)
    (h : some (serverAnimationStateOf player.currentAnimationName
      player.isMovingBackwards) ≠ gate.lastSentAnimationState) :
    (sendServerUpdates gate now player).2.animationCall
      = some (serverAnimationStateOf player.currentAnimationName
          player.isMovingBackwards) := by
  unfold sendServerUpdates
  by_cases hD : now - gate.lastUpdateTime ≥ UPDATE_INTERVAL ∧
      (positionChanged gate.lastSentPosition player.position ∨
        rotationChanged gate.lastSentPosition (player.rotationY + Real.pi)) <;>
    simp [h, hD]

theorem sendServerUpdates_anim_skip (gate : GateState) (now : ℝ)
    (player : LocalPlayerState)
    (h : some (serverAnimationStateOf player.currentAnimationName
      player.isMovingBackwards) = gate.lastSentAnimationState) :
    (sendServerUpdates gate now player).2.animationCall = none := by
  unfold sendServerUpdates
  by_cases hD : now - gate.lastUpdateTime ≥ UPDATE_INTERVAL ∧
      (positionChanged gate.lastSentPosition player.position ∨
        rotationChanged gate.lastSentPosition (player.rotationY + Real.pi)) <;>
    simp [h, hD]

/- ### C4 -/

/-- C4: the Server Update Gate sends a position/rotation call exactly when
the cadence interval has elapsed since the last send AND the change relative
to the last value actually sent exceeds the per-field thresholds — and the
value sent is the then-current one; when the combined condition fails,
nothing is sent and the last-sent basis is retained.  Animation-state changes
are sent exactly when the derived state differs from the last one sent, with
no cadence condition.  A change exceeding the threshold before the interval
has elapsed is deferred, not dropped: the first later frame satisfying the
cadence-and-threshold condition sends the then-current latest value. -/
theorem sendServerUpdates_cadence_and_thresholds (gate : GateState)
    (now t2 : ℝ) (player p2 : LocalPlayerState) :
    ((now - gate.lastUpdateTime ≥ UPDATE_INTERVAL ∧
        (positionChanged gate.lastSentPosition player.position ∨
          rotationChanged gate.lastSentPosition (player.rotationY + Real.pi))) →
      (sendServerUpdates gate now player).2.positionCall
        = some (player.position.x, player.position.z, player.rotationY + Real.pi)) ∧
    (¬ (now - gate.lastUpdateTime ≥ UPDATE_INTERVAL ∧
        (positionChanged gate.lastSentPosition player.position ∨
          rotationChanged gate.lastSentPosition (player.rotationY + Real.pi))) →
      (sendServerUpdates gate now player).2.positionCall = none ∧
      (sendServerUpdates gate now player).1.lastSentPosition = gate.lastSentPosition ∧
      (sendServerUpdates gate now player).1.lastUpdateTime = gate.lastUpdateTime) ∧
    (some (serverAnimationStateOf player.currentAnimationName player.isMovingBackwards)
        ≠ gate.lastSentAnimationState →
      (sendServerUpdates gate now player).2.animationCall
        = some (serverAnimationStateOf player.currentAnimationName
            player.isMovingBackwards)) ∧
    (some (serverAnimationStateOf player.currentAnimationName player.isMovingBackwards)
        = gate.lastSentAnimationState →
      (sendServerUpdates gate now player).2.animationCall = none) ∧
    (now - gate.lastUpdateTime < UPDATE_INTERVAL →
      positionChanged gate.lastSentPosition player.position →
      t2 - gate.lastUpdateTime ≥ UPDATE_INTERVAL →
      positionChanged gate.lastSentPosition p2.position →
      (sendServerUpdates gate now player).2.positionCall = none ∧
      (sendServerUpdates (sendServerUpdates gate now player).1 t2 p2).2.positionCall
        = some (p2.position.x, p2.position.z, p2.rotationY + Real.pi)) := by
  refine ⟨fun h => sendServerUpdates_pos_send gate now player h,
    fun h => sendServerUpdates_pos_skip gate now player h,
    fun h => sendServerUpdates_anim_send gate now player h,
    fun h => sendServerUpdates_anim_skip gate now player h,
    fun hlt hpc ht2 hpc2 => ?_⟩
  have hnd : ¬ (now - gate.lastUpdateTime ≥ UPDATE_INTERVAL ∧
      (positionChanged gate.lastSentPosition player.position ∨
        rotationChanged gate.lastSentPosition (player.rotationY + Real.pi))) := by
    intro hcon
    exact absurd hcon.1 (not_le.mpr hlt)
  have hskip := sendServerUpdates_pos_skip gate now player hnd
  refine ⟨hskip.1, ?_⟩
  apply sendServerUpdates_pos_send
  constructor
  · rw [hskip.2.2]
    exact ht2
  · left
    rw [hskip.2.1]
    exact hpc2

/-- Witness for C4's deferral scenario: at frame time 10 (within the cadence
interval of the last send at time 0) a position change of 1 unit exceeds the
threshold but is not sent; the frame at time 40 (cadence elapsed) sends the
then-current position `(2, 0)`, not the stale one. -/
theorem sendServerUpdates_cadence_and_thresholds_witness :
    (10 : ℝ) - sampleGate.lastUpdateTime < UPDATE_INTERVAL ∧
    positionChanged sampleGate.lastSentPosition movedPlayer1.position ∧
    (40 : ℝ) - sampleGate.lastUpdateTime ≥ UPDATE_INTERVAL ∧
    positionChanged sampleGate.lastSentPosition movedPlayer2.position ∧
    (sendServerUpdates sampleGate 10 movedPlayer1).2.positionCall = none ∧
    (sendServerUpdates (sendServerUpdates sampleGate 10 movedPlayer1).1 40
        movedPlayer2).2.positionCall
      = some (movedPlayer2.position.x, movedPlayer2.position.z,
          movedPlayer2.rotationY + Real.pi) := by
  have h1 : (10 : ℝ) - sampleGate.lastUpdateTime < UPDATE_INTERVAL := by
    show (10 : ℝ) - 0 < 1000 / 30
    norm_num
  have h2 : positionChanged sampleGate.lastSentPosition movedPlayer1.position := by
    left
    show |(1 : ℝ) - 0| > POSITION_THRESHOLD
    rw [show POSITION_THRESHOLD = (0.01 : ℝ) from rfl]
    norm_num
  have h3 : (40 : ℝ) - sampleGate.lastUpdateTime ≥ UPDATE_INTERVAL := by
    show (40 : ℝ) - 0 ≥ 1000 / 30
    norm_num
  have h4 : positionChanged sampleGate.lastSentPosition movedPlayer2.position := by
    left
    show |(2 : ℝ) - 0| > POSITION_THRESHOLD
    rw [show POSITION_THRESHOLD = (0.01 : ℝ) from rfl]
    norm_num
  have h := (sendServerUpdates_cadence_and_thresholds sampleGate 10 40 movedPlayer1
    movedPlayer2).2.2.2.2 h1 h2 h3 h4
  exact ⟨h1, h2, h3, h4, h.1, h.2⟩

/- ### Render-synchronizer animation helpers -/

theorem walkFwd_from_idle (c : PlayerRenderComponent) (d : RemotePlayerRenderData)
    (hc : c.currentAnimation = .idle) (hd : d.animationState = "walkingForwards") :
    (updateExistingRemoteComponent c d).2
      = [AnimEvent.fadeOut .idle, AnimEvent.fadeIn .walk] ∧
    (updateExistingRemoteComponent c d).1.currentAnimation = .walk ∧
    (updateExistingRemoteComponent c d).1.walkTimeScale = 1 := by
  unfold updateExistingRemoteComponent
  simp only [hd]
  norm_num
  split_ifs <;> simp_all [switchAnimation]

theorem walkBack_from_walk (c : PlayerRenderComponent) (d : RemotePlayerRenderData)
    (hc : c.currentAnimation = .walk) (hd : d.animationState = "walkingBackwards") :
    (updateExistingRemoteComponent c d).2 = [] ∧
    (updateExistingRemoteComponent c d).1.currentAnimation = .walk ∧
    (updateExistingRemoteComponent c d).1.walkTimeScale = -1 := by
  unfold updateExistingRemoteComponent
  simp only [hd]
  norm_num
  split_ifs <;> simp_all [switchAnimation]

/- ### C6 -/

/-- C6: a render component currently in `idle`, fed a walk-forward
classification, performs exactly one crossfade — the idle action fades out
and the walk action fades in — with the walk playback rate set to `+1`;
feeding walk-backward on the next pass (same logical `walk` bucket) performs
no further crossfade (no fade events at all) and only flips the walk action's
`timeScale` to `-1`. -/
theorem remote_component_walk_crossfade_once (rc : PlayerRenderComponent)
    (d1 d2 : RemotePlayerRenderData)
    (h0 : rc.currentAnimation = .idle)
    (h1 : d1.animationState = "walkingForwards")
    (h2 : d2.animationState = "walkingBackwards") :
    (updateExistingRemoteComponent rc d1).2
      = [AnimEvent.fadeOut .idle, AnimEvent.fadeIn .walk] ∧
    (updateExistingRemoteComponent rc d1).1.currentAnimation = .walk ∧
    (updateExistingRemoteComponent rc d1).1.walkTimeScale = 1 ∧
    (updateExistingRemoteComponent (updateExistingRemoteComponent rc d1).1 d2).2
      = [] ∧
    (updateExistingRemoteComponent (updateExistingRemoteComponent rc d1).1 d2).1.walkTimeScale
      = -1 := by
  have hA := walkFwd_from_idle rc d1 h0 h1
  have hB := walkBack_from_walk (updateExistingRemoteComponent rc d1).1 d2 hA.2.1 h2
  exact ⟨hA.1, hA.2.1, hA.2.2, hB.1, hB.2.2⟩

/-- Witness for C6 at a concrete idle component fed walk-forward then
walk-backward data. -/
theorem remote_component_walk_crossfade_once_witness :
    rcIdle.currentAnimation = .idle ∧
    (updateExistingRemoteComponent rcIdle walkFwdData).2
      = [AnimEvent.fadeOut .idle, AnimEvent.fadeIn .walk] ∧
    (updateExistingRemoteComponent
        (updateExistingRemoteComponent rcIdle walkFwdData).1 walkBackData).2 = [] ∧
    (updateExistingRemoteComponent
        (updateExistingRemoteComponent rcIdle walkFwdData).1 walkBackData).1.walkTimeScale
      = -1 := by
  have h := remote_component_walk_crossfade_once rcIdle walkFwdData walkBackData
    rfl rfl rfl
  exact ⟨rfl, h.1, h.2.2.2.1, h.2.2.2.2⟩

/- ### C5 -/

/-- C5 (divergence): the spec's end-to-end scenario.  The row
`{identity: "abc", position: (5, 2), rotationYaw: 1.57, animationState: "idle"}`
arrives and the creation pass makes exactly one component at world position
`(5, 0, 2)` — the claimed axis mapping with ground height 0 — with yaw `1.57`
and idle animation; a pass without the row removes the component and disposes
its resources.  But on the next pass while the row persists, the update
branch builds its target from `(position.x, position.y, position.z)` — with
`position.y` (a ground coordinate) applied as world *height* and `z`
defaulting to `0` — so the component's world position becomes `(5, 2, 0)`,
not `(5, 0, 2)` as the claim requires for every later pass. -/
theorem updateRemotePlayers_axis_mapping_divergence :
    ((lookupComp (updateRemotePlayers ⟨[], []⟩ [(("abc" : String), remoteRowAbc)]
        true).playerRenderComponents ("abc")).map PlayerRenderComponent.positionV)
      = some ⟨5, 0, 2⟩ ∧
    ((lookupComp (updateRemotePlayers ⟨[], []⟩ [(("abc" : String), remoteRowAbc)]
        true).playerRenderComponents ("abc")).map PlayerRenderComponent.rotationY)
      = some 1.57 ∧
    ((lookupComp (updateRemotePlayers ⟨[], []⟩ [(("abc" : String), remoteRowAbc)]
        true).playerRenderComponents ("abc")).map PlayerRenderComponent.currentAnimation)
      = some .idle ∧
    ((lookupComp (updateRemotePlayers
        (updateRemotePlayers ⟨[], []⟩ [(("abc" : String), remoteRowAbc)] true)
        [(("abc" : String), remoteRowAbc)] true).playerRenderComponents
        ("abc")).map PlayerRenderComponent.positionV)
      = some ⟨5, 2, 0⟩ ∧
    (updateRemotePlayers (updateRemotePlayers
        (updateRemotePlayers ⟨[], []⟩ [(("abc" : String), remoteRowAbc)] true)
        [(("abc" : String), remoteRowAbc)] true) [] true).playerRenderComponents
      = [] ∧
    (updateRemotePlayers (updateRemotePlayers
        (updateRemotePlayers ⟨[], []⟩ [(("abc" : String), remoteRowAbc)] true)
        [(("abc" : String), remoteRowAbc)] true) [] true).disposed
      = [("abc" : String)] := by
  have h1 : updateRemotePlayers ⟨[], []⟩ [(("abc" : String), remoteRowAbc)] true
      = ⟨[(("abc" : String),
            (⟨⟨5, 0, 2⟩, 1.57, .idle, 1, ⟨5, 2⟩⟩ : PlayerRenderComponent))], []⟩ := by
    unfold updateRemotePlayers
    simp [lookupComp, mapSetRC, createRemoteComponent, remoteRowAbc, switchAnimation]
  have h2 : updateRemotePlayers
        ⟨[(("abc" : String),
            (⟨⟨5, 0, 2⟩, 1.57, .idle, 1, ⟨5, 2⟩⟩ : PlayerRenderComponent))], []⟩
        [(("abc" : String), remoteRowAbc)] true
      = ⟨[(("abc" : String),
            (⟨⟨5, 2, 0⟩, 1.57, .idle, 1, ⟨5, 2⟩⟩ : PlayerRenderComponent))], []⟩ := by
    clear h1
    unfold updateRemotePlayers
    norm_num [lookupComp, mapSetRC, updateExistingRemoteComponent, remoteRowAbc,
      Vec3.mk.injEq]
    split_ifs <;> simp_all
  have h3 : updateRemotePlayers
        ⟨[(("abc" : String),
            (⟨⟨5, 2, 0⟩, 1.57, .idle, 1, ⟨5, 2⟩⟩ : PlayerRenderComponent))], []⟩
        [] true
      = ⟨[], [("abc" : String)]⟩ := by
    unfold updateRemotePlayers
    simp
  rw [h1, h2, h3]
  refine ⟨?_, ?_, ?_, ?_, rfl, rfl⟩ <;> simp [lookupComp]

/- ### Movement-magnitude helpers -/

theorem Vec3.add_sub_cancel_left (a b : Vec3) : Vec3.sub (Vec3.add a b) a = b := by
  show Vec3.sub (Vec3.add a b) a = ⟨b.x, b.y, b.z⟩
  unfold Vec3.add Vec3.sub
  simp

theorem length_normalize_multiplyScalar (v : Vec3) (k : ℝ)
    (hv : 0 < v.lengthSq) :
    Vec3.length (Vec3.multiplyScalar (Vec3.normalize v) k) = |k| := by
  have hLpos : 0 < Vec3.length v := Real.sqrt_pos.mpr hv
  unfold Vec3.normalize
  rw [if_neg (ne_of_gt hLpos)]
  unfold Vec3.length Vec3.divideScalar
  have h1 : Vec3.lengthSq
      (Vec3.multiplyScalar (Vec3.multiplyScalar v (1 / Real.sqrt v.lengthSq)) k)
      = k ^ 2 * (((1 : ℝ) / Real.sqrt v.lengthSq) ^ 2 * v.lengthSq) := by
    unfold Vec3.lengthSq Vec3.multiplyScalar
    ring
  rw [h1]
  have h2 : ((1 : ℝ) / Real.sqrt v.lengthSq) ^ 2 * v.lengthSq = 1 := by
    rw [div_pow, one_pow, Real.sq_sqrt (le_of_lt hv), one_div,
      inv_mul_cancel₀ (ne_of_gt hv)]
  rw [h2, mul_one, Real.sqrt_sq_eq_abs]

theorem moveDirection_lengthSq_cases (i : InputState) (t : ℝ)
    (h : exactlyOneDirectionHeld i ∨ twoOrthogonalDirectionsHeld i) :
    Vec3.lengthSq (moveDirection i t) = 1 ∨ Vec3.lengthSq (moveDirection i t) = 2 := by
  rcases h with h | h
  · left
    rcases h with ⟨h1, h2, h3, h4⟩ | ⟨h1, h2, h3, h4⟩ | ⟨h1, h2, h3, h4⟩ | ⟨h1, h2, h3, h4⟩ <;>
      · simp [moveDirection, h1, h2, h3, h4, Vec3.add, Vec3.sub, Vec3.applyAxisAngleY,
          Vec3.lengthSq]
        linear_combination Real.sin_sq_add_cos_sq t
  · right
    rcases h with ⟨h1, h2, h3, h4⟩ | ⟨h1, h2, h3, h4⟩ | ⟨h1, h2, h3, h4⟩ | ⟨h1, h2, h3, h4⟩ <;>
      · simp [moveDirection, h1, h2, h3, h4, Vec3.add, Vec3.sub, Vec3.applyAxisAngleY,
          Vec3.lengthSq]
        linear_combination 2 * Real.sin_sq_add_cos_sq t

/- ### C3 -/

/-- C3: for every local player state and positive `dt`, if exactly one
direction flag is held the displacement produced by
`calculateNextPlayerState` has magnitude exactly `MOVEMENT_SPEED * dt`; and
if two orthogonal direction flags are held, the movement direction is
normalized so the magnitude is still exactly `MOVEMENT_SPEED * dt` (not
`MOVEMENT_SPEED * dt * sqrt 2`): in both cases the accumulated direction has
squared length 1 or 2, is normalized to a unit vector and scaled by
`speed = MOVEMENT_SPEED * dt`. -/
theorem calculateNextPlayerState_displacement_magnitude (p : LocalPlayerState)
    (dt : ℝ) (hdt : 0 < dt)
    (h : exactlyOneDirectionHeld p.input ∨ twoOrthogonalDirectionsHeld p.input) :
    Vec3.length (Vec3.sub (calculateNextPlayerState p dt).1.position p.position)
      = MOVEMENT_SPEED * dt := by
  have hLS := moveDirection_lengthSq_cases p.input p.rotationY h
  have hpos : 0 < Vec3.lengthSq (moveDirection p.input p.rotationY) := by
    rcases hLS with h' | h' <;> rw [h'] <;> norm_num
  have hgt : Vec3.lengthSq (moveDirection p.input p.rotationY) > 0.00001 := by
    rcases hLS with h' | h' <;> rw [h'] <;> norm_num
  have hdec : decide (Vec3.lengthSq (moveDirection p.input p.rotationY) > 0.00001)
      = true := decide_eq_true hgt
  unfold calculateNextPlayerState
  simp only [hdec, if_true, Bool.true_eq_false, false_and, if_false]
  simp only [Vec3.add_sub_cancel_left]
  rw [length_normalize_multiplyScalar _ _ hpos]
  rw [abs_of_pos]
  have : (0 : ℝ) < MOVEMENT_SPEED := by
    rw [show MOVEMENT_SPEED = (3.0 : ℝ) from rfl]
    norm_num
  exact mul_pos this hdt

/-- Witness for C3: holding only forward at yaw 0 for `dt = 1` moves the
player by exactly `MOVEMENT_SPEED * 1`. -/
theorem calculateNextPlayerState_displacement_magnitude_witness :
    (0 : ℝ) < 1 ∧ exactlyOneDirectionHeld forwardPlayer.input ∧
    Vec3.length (Vec3.sub (calculateNextPlayerState forwardPlayer 1).1.position
        forwardPlayer.position) = MOVEMENT_SPEED * 1 :=
  ⟨by norm_num, Or.inl ⟨rfl, rfl, rfl, rfl⟩,
    calculateNextPlayerState_displacement_magnitude forwardPlayer 1 (by norm_num)
      (Or.inl (Or.inl ⟨rfl, rfl, rfl, rfl⟩))⟩
